import Mathlib

/-!
Verification of the ray-tracing renderer core (`src/renderer.rs`,
`src/vulkan.rs`, `src/scene.rs`, `src/camera.rs`).

Shallow embedding notes:
* Byte buffers and GPU handles are modelled as `Nat`-valued data; machine
  integer casts (`as u32`, `as u8`) are modelled with explicit `% 2^w`.
* GPU device addresses and shader-group handles are values supplied by the
  driver at run time; they are therefore parameters of the embedded
  functions.
* Renderer settings and camera coordinates are `f32` in the source, but
  every operation the verified claims touch (`1.0 - x` on values in
  {0.0, 1.0}, plain field copies sized by `speed`) is exact in IEEE `f32`,
  so those fields are embedded as `ℚ`.  Instance transforms (`Mat4`) are
  carried by no verified computation and are omitted from the records.
-/

/- ================================================================
   DEFINITIONS
   ================================================================ -/

/- ----------------------------------------------------------------
   Shader binding table construction (renderer.rs, Renderer::new, step 6)

   let handles = get_ray_tracing_shader_group_handles(pipeline, 0, 4, 128)
   let mut sbt_data = vec![0u8; 128];
   sbt_data[0..32].copy_from_slice(&handles[0..32]);    // Gen  (Group 0)
   sbt_data[32..64].copy_from_slice(&handles[32..64]);  // Miss 0 (Group 1)
   sbt_data[64..96].copy_from_slice(&handles[96..128]); // Miss 1 (Group 3)
   sbt_data[96..128].copy_from_slice(&handles[64..96]); // Hit  (Group 2)
   ---------------------------------------------------------------- -/

/-- Byte-array model: `copyRange dst src dstStart srcStart len` is
`dst[dstStart..dstStart+len].copy_from_slice(&src[srcStart..srcStart+len])`. -/
def copyRange (dst src : Nat → Nat) (dstStart srcStart len : Nat) : Nat → Nat :=
  fun i => if dstStart ≤ i ∧ i < dstStart + len then src (srcStart + (i - dstStart)) else dst i

/-- Handle size of one shader-group record; the source fixes `prog_size = 32`. -/
def handleSize : Nat := 32

/-- Byte `k` of the handle of shader group `g` inside the packed array
returned by `get_ray_tracing_shader_group_handles` (one 32-byte record per
group, in group-index order). -/
def groupHandleByte (handles : Nat → Nat) (g k : Nat) : Nat :=
  handles (handleSize * g + k)

/-- SBT buffer contents built by `Renderer::new`: a 128-byte buffer filled by
the four `copy_from_slice` calls (bytes past 127 keep the `vec![0u8; 128]`
fill, irrelevant to the claims). -/
def sbtData (handles : Nat → Nat) : Nat → Nat :=
  let d0 : Nat → Nat := fun _ => 0
  let d1 := copyRange d0 handles 0 0 32
  let d2 := copyRange d1 handles 32 32 32
  let d3 := copyRange d2 handles 64 96 32
  copyRange d3 handles 96 64 32

/- ----------------------------------------------------------------
   Memory type resolution (renderer.rs, find_memory_type)

   for i in 0..mem_properties.memory_type_count {
       if (type_filter & (1 << i)) != 0
          && (memory_types[i].property_flags & properties) == properties {
           return Ok(i);
       }
   }
   Err("Failed to find suitable memory type".into())
   ---------------------------------------------------------------- -/

/-- Error value of the resolver; the spec's taxonomy calls the single failure
of `find_memory_type` `NoCompatibleMemoryType`. -/
inductive MemError where
  | noCompatibleMemoryType
  deriving DecidableEq

/-- Loop of `find_memory_type`: `memTypes` is the suffix of the
`memory_types` array starting at index `i`; each element is that type's
`property_flags` bitmask. -/
def findMemoryTypeAux (typeFilter props : Nat) : List Nat → Nat → Except MemError Nat
  | [], _ => .error .noCompatibleMemoryType
  | flags :: rest, i =>
    if Nat.land typeFilter (2 ^ i) ≠ 0 ∧ Nat.land flags props = props then .ok i
    else findMemoryTypeAux typeFilter props rest (i + 1)

/-- Embedded `find_memory_type`: scans memory types from index 0 and returns
the first index whose bit is set in `typeFilter` and whose property flags
contain all requested `props` bits. -/
def find_memory_type (typeFilter props : Nat) (memTypes : List Nat) : Except MemError Nat :=
  findMemoryTypeAux typeFilter props memTypes 0

/-- Predicate: memory type `i` is compatible with the request. -/
def MemMatch (typeFilter props : Nat) (memTypes : List Nat) (i : Nat) : Prop :=
  Nat.land typeFilter (2 ^ i) ≠ 0 ∧ Nat.land (memTypes.getD i 0) props = props

instance (typeFilter props : Nat) (memTypes : List Nat) (i : Nat) :
    Decidable (MemMatch typeFilter props memTypes i) := by
  unfold MemMatch; infer_instance

/- ----------------------------------------------------------------
   Physical device selection (vulkan.rs, VulkanContext::new)
   ---------------------------------------------------------------- -/

/-- Wrapping `u32` cast (Rust `as u32` on a `u64`, and wrapping `u32`
addition in release builds). -/
def u32cast (n : Nat) : Nat := n % 4294967296

/-- Vulkan `VkPhysicalDeviceType` values the scoring distinguishes. -/
inductive DeviceType where
  | discreteGpu
  | integratedGpu
  | virtualGpu
  | cpu
  | other
  deriving DecidableEq, Repr

/-- Queue family: `queueFlags` is the `VkQueueFlags` bitmask
(GRAPHICS = 1, COMPUTE = 2); `supportsPresent` is the result of
`get_physical_device_surface_support` for this family. -/
structure QueueFamily where
  queueFlags : Nat
  supportsPresent : Bool
  deriving DecidableEq, Repr

/-- Device-local flag and size in bytes of one `VkMemoryHeap`. -/
structure MemoryHeap where
  size : Nat
  deviceLocal : Bool
  deriving DecidableEq, Repr

/-- Enumerated physical device as the selection code observes it. -/
structure PhysDevice where
  deviceType : DeviceType
  queueFamilies : List QueueFamily
  extensions : List String
  heaps : List MemoryHeap
  deriving DecidableEq, Repr

/-- Required extension set checked by `VulkanContext::new`. -/
def requiredExtensions : List String :=
  ["VK_KHR_swapchain", "VK_KHR_acceleration_structure", "VK_KHR_ray_tracing_pipeline",
   "VK_KHR_deferred_host_operations", "VK_KHR_buffer_device_address"]

/-- Queue family check: `q.queue_flags.contains(GRAPHICS | COMPUTE)` and
surface support. -/
def queueFamilySuitable (q : QueueFamily) : Bool :=
  (Nat.land q.queueFlags 3 == 3) && q.supportsPresent

/-- A device qualifies when some queue family is suitable (the source's
`find_map`) and all five required extensions are advertised. -/
def deviceQualifies (d : PhysDevice) : Bool :=
  d.queueFamilies.any queueFamilySuitable &&
  requiredExtensions.all (fun req => d.extensions.any (fun e => e == req))

/-- Class base score: discrete GPU 1000, integrated 500, everything else 100. -/
def baseScore : DeviceType → Nat
  | .discreteGpu => 1000
  | .integratedGpu => 500
  | _ => 100

/-- Device score: base score plus, for every device-local heap,
`(heap.size / GiB) as u32`, accumulated with wrapping `u32` addition. -/
def deviceScore (d : PhysDevice) : Nat :=
  d.heaps.foldl
    (fun score h =>
      if h.deviceLocal then u32cast (score + u32cast (h.size / 1073741824)) else score)
    (baseScore d.deviceType)

/-- Insert into a list already sorted by descending score, before the first
strictly smaller element; on ties the inserted element, which enumerates
earlier, stays in front, matching the stability of Rust's
`sort_by(|a, b| b.2.cmp(&a.2))`. -/
def insertByScoreDesc (d : PhysDevice) : List PhysDevice → List PhysDevice
  | [] => [d]
  | x :: xs => if deviceScore x ≤ deviceScore d then d :: x :: xs
               else x :: insertByScoreDesc d xs

/-- Stable sort by descending score. -/
def sortByScoreDesc : List PhysDevice → List PhysDevice
  | [] => []
  | d :: rest => insertByScoreDesc d (sortByScoreDesc rest)

/-- Device selection: keep qualifying devices in enumeration order, sort by
descending score (stable), take the first; `none` models the
`NoSuitableDevice` failure. -/
def selectPhysicalDevice (devices : List PhysDevice) : Option PhysDevice :=
  (sortByScoreDesc (devices.filter deviceQualifies)).head?

/- ----------------------------------------------------------------
   Scene data and per-instance descriptor records
   (scene.rs; renderer.rs, Renderer::new, scene_descs loop)
   ---------------------------------------------------------------- -/

/-- Mesh as the renderer's offset computations observe it.  The source's
`Mesh` holds `Vec<Vertex>` and `Vec<u32>`; only their lengths enter the
descriptor and geometry offset computations, so the embedding records the
two lengths. -/
structure MeshShape where
  numVertices : Nat
  numIndices : Nat
  deriving DecidableEq, Repr

/-- Scene object (instance): mesh index and material index.  The `Mat4`
transform is omitted: no computation under verification reads it. -/
structure SceneObject where
  mesh_index : Nat
  material_index : Nat
  deriving DecidableEq, Repr, Inhabited

/-- Size in bytes of `Vertex` (`pos`, `nrm`, `color`: nine `f32`). -/
def vertexSize : Nat := 36

/-- Size in bytes of one `u32` index. -/
def indexSize : Nat := 4

/-- Size in bytes of `Material` (`color`, `params`: eight `f32`). -/
def materialSize : Nat := 32

/-- Offset loop of the `scene_descs` construction: walk the mesh list,
stopping at `mesh_index` (`if idx == obj.mesh_index { break; }`), summing
vertex and index counts of the meshes walked over.  Returns
`(v_off, i_off)`. -/
def sceneOffsets : List MeshShape → Nat → Nat × Nat
  | [], _ => (0, 0)
  | _ :: _, 0 => (0, 0)
  | m :: rest, n + 1 =>
    let p := sceneOffsets rest n
    (m.numVertices + p.1, m.numIndices + p.2)

/-- Per-instance descriptor record (`SceneDesc` in renderer.rs): three
device addresses consumed by the hit shader. -/
structure SceneDescRec where
  vertex_addr : Nat
  index_addr : Nat
  material_addr : Nat
  deriving DecidableEq, Repr, Inhabited

/-- One record of the `scene_descs` loop: vertex and index addresses are the
scene buffer base addresses plus the byte offsets of the object's mesh;
`material_addr` is the material buffer's base address as queried. -/
def mkSceneDesc (vertexAddr indexAddr materialAddr : Nat) (meshes : List MeshShape)
    (obj : SceneObject) : SceneDescRec :=
  let offs := sceneOffsets meshes obj.mesh_index
  { vertex_addr := vertexAddr + offs.1 * vertexSize,
    index_addr := indexAddr + offs.2 * indexSize,
    material_addr := materialAddr }

/-- Descriptor records for every scene object, in object order. -/
def sceneDescs (vertexAddr indexAddr materialAddr : Nat) (meshes : List MeshShape)
    (objects : List SceneObject) : List SceneDescRec :=
  objects.map (mkSceneDesc vertexAddr indexAddr materialAddr meshes)

/-- Total vertex bytes of the meshes preceding mesh `k`
(the byte offset of mesh `k`'s vertex sub-range). -/
def vertexBytesBefore (meshes : List MeshShape) (k : Nat) : Nat :=
  ((meshes.take k).map MeshShape.numVertices).sum * vertexSize

/-- Total index bytes of the meshes preceding mesh `k`. -/
def indexBytesBefore (meshes : List MeshShape) (k : Nat) : Nat :=
  ((meshes.take k).map MeshShape.numIndices).sum * indexSize

/- ----------------------------------------------------------------
   TLAS instance records (renderer.rs, Renderer::new, step 3)
   ---------------------------------------------------------------- -/

/-- Packing of ash's `Packed24_8::new(lower_24, upper_8)`:
`(lower_24 & 0x00ff_ffff) | (u32::from(upper_8) << 24)`.  `upper` is a `u8`
in the source; the `% 256` makes that explicit. -/
def packed24_8 (lower upper : Nat) : Nat :=
  (lower &&& 0xFFFFFF) ||| ((upper % 256) <<< 24)

/-- Raw value of `GeometryInstanceFlagsKHR::TRIANGLE_FACING_CULL_DISABLE`. -/
def triangleFacingCullDisable : Nat := 1

/-- Embedded `VkAccelerationStructureInstanceKHR` fields the claims inspect. -/
structure AccelInstance where
  customIndexAndMask : Nat
  sbtOffsetAndFlags : Nat
  accelerationStructureReference : Nat
  deriving DecidableEq, Repr, Inhabited

/-- One TLAS instance record.  `blasAddrs` holds the BLAS device addresses in
mesh order (`blas_list`, one entry per mesh, addresses supplied by
`get_acceleration_structure_device_address`).  The source indexes
`blas_list[obj.mesh_index]`, which panics when out of range; the embedding
returns `none` there.  `obj.material_index as u32` is a wrapping cast. -/
def mkAccelInstance (blasAddrs : List Nat) (obj : SceneObject) : Option AccelInstance :=
  if h : obj.mesh_index < blasAddrs.length then
    some
      { customIndexAndMask := packed24_8 (u32cast obj.material_index) 0xFF,
        sbtOffsetAndFlags := packed24_8 0 triangleFacingCullDisable,
        accelerationStructureReference := blasAddrs.get ⟨obj.mesh_index, h⟩ }
  else none

/-- Instance records for all scene objects, in object order; `none` when any
object's mesh index is out of range of the BLAS list. -/
def mkAccelInstances (blasAddrs : List Nat) : List SceneObject → Option (List AccelInstance)
  | [] => some []
  | obj :: rest =>
    match mkAccelInstance blasAddrs obj with
    | none => none
    | some inst =>
      match mkAccelInstances blasAddrs rest with
      | none => none
      | some insts => some (inst :: insts)

/- ----------------------------------------------------------------
   Surface extent, storage image and trace dimensions
   (renderer.rs, Renderer::new step 4 and Renderer::render)
   ---------------------------------------------------------------- -/

/-- Largest `u32`, the sentinel for an undefined surface extent. -/
def u32Max : Nat := 4294967295

/-- Surface capability fields the extent computation reads. -/
structure SurfaceCaps where
  currentExtent : Nat × Nat
  minImageExtent : Nat × Nat
  maxImageExtent : Nat × Nat
  deriving DecidableEq, Repr

/-- Rust `Ord::clamp(self, min, max)` on unsigned integers. -/
def rustClamp (x lo hi : Nat) : Nat :=
  if x < lo then lo else if x > hi then hi else x

/-- Extent chosen in `Renderer::new`: the surface's `current_extent`, or the
window size clamped to the supported range when the surface reports the
`u32::MAX` sentinel. -/
def surfaceExtent (caps : SurfaceCaps) (windowSize : Nat × Nat) : Nat × Nat :=
  if caps.currentExtent.1 = u32Max then
    (rustClamp windowSize.1 caps.minImageExtent.1 caps.maxImageExtent.1,
     rustClamp windowSize.2 caps.minImageExtent.2 caps.maxImageExtent.2)
  else caps.currentExtent

/-- Image dimensions recorded by `create_image(ctx, width, height, ..)`. -/
structure GpuImage where
  width : Nat
  height : Nat
  deriving DecidableEq, Repr

/-- Off-screen storage image, created at the computed surface extent. -/
def storageImage (caps : SurfaceCaps) (windowSize : Nat × Nat) : GpuImage :=
  { width := (surfaceExtent caps windowSize).1,
    height := (surfaceExtent caps windowSize).2 }

/-- Dispatch dimensions of `cmd_trace_rays` in `Renderer::render`: the
hardcoded `1280, 720, 1`. -/
def traceRaysDims : Nat × Nat × Nat := (1280, 720, 1)

/- ----------------------------------------------------------------
   Per-frame render protocol (renderer.rs, Renderer::render)
   ---------------------------------------------------------------- -/

/-- Result of `acquire_next_image` as the render loop matches on it. -/
inductive AcquireResult where
  | success (imageIndex : Nat)
  | outOfDate
  | otherError
  deriving DecidableEq, Repr

/-- Result of `queue_present` as the render loop matches on it. -/
inductive PresentResult where
  | success
  | outOfDate
  | otherError
  deriving DecidableEq, Repr

/-- Environment of one `render` call: what the swapchain reports at the
acquire and present steps. -/
structure RenderEnv where
  acquire : AcquireResult
  present : PresentResult
  deriving DecidableEq, Repr

/-- Observable actions of one `render` call, in program order. -/
inductive FrameEvent where
  | waitFence (slot : Nat)
  | acquireImage
  | resetFence (slot : Nat)
  | resetCmdBuf (slot : Nat)
  | updateUniforms
  | recordCommands
  | submit (slot : Nat)
  | presentImage
  deriving DecidableEq, Repr

/-- Outcome of one `render` call: next `current_frame`, whether `Ok(())` was
returned, and the trace of performed actions. -/
structure RenderOutcome where
  newFrame : Nat
  returnedOk : Bool
  events : List FrameEvent
  deriving DecidableEq, Repr

/-- One `Renderer::render` call starting at slot `currentFrame`:
wait on the slot's fence; acquire (early `Ok` return on out-of-date, error
return otherwise on failure); reset the fence and the slot's command buffer;
update uniforms; record; submit; present (error return on an unexpected
present failure); advance the slot modulo 2. -/
def renderStep (currentFrame : Nat) (env : RenderEnv) : RenderOutcome :=
  let pre := [FrameEvent.waitFence currentFrame, FrameEvent.acquireImage]
  match env.acquire with
  | .outOfDate => { newFrame := currentFrame, returnedOk := true, events := pre }
  | .otherError => { newFrame := currentFrame, returnedOk := false, events := pre }
  | .success _ =>
    let submitted := pre ++
      [FrameEvent.resetFence currentFrame, FrameEvent.resetCmdBuf currentFrame,
       FrameEvent.updateUniforms, FrameEvent.recordCommands,
       FrameEvent.submit currentFrame, FrameEvent.presentImage]
    match env.present with
    | .otherError => { newFrame := currentFrame, returnedOk := false, events := submitted }
    | _ => { newFrame := (currentFrame + 1) % 2, returnedOk := true, events := submitted }

/-- Slot index after a sequence of `render` calls. -/
def runRender (currentFrame : Nat) : List RenderEnv → Nat
  | [] => currentFrame
  | env :: rest => runRender (renderStep currentFrame env).newFrame rest

/-- Environment of a frame that completes: the acquire succeeded and the
present did not hard-fail. -/
def FrameCompletes (env : RenderEnv) : Prop :=
  (∃ i, env.acquire = .success i) ∧ env.present ≠ .otherError

instance (env : RenderEnv) : Decidable (FrameCompletes env) := by
  unfold FrameCompletes
  cases env with
  | mk a p => cases a <;> cases p <;> simp <;> infer_instance

/- ----------------------------------------------------------------
   Input handling and settings (renderer.rs, Renderer::handle_input;
   camera.rs, Camera::handle_input)
   ---------------------------------------------------------------- -/

/-- Keys the input handlers distinguish; every other `KeyCode` falls through
both `match` statements unchanged and is collapsed into `otherKey`. -/
inductive Key where
  | keyW | keyA | keyS | keyD | keyQ | keyE
  | digit1 | digit2 | digit3 | digit4
  | otherKey
  deriving DecidableEq, Repr

/-- Key state (`winit::event::ElementState`). -/
inductive KeyState where
  | pressed
  | released
  deriving DecidableEq, Repr

/-- Rational 3-vector for camera coordinates. -/
structure Vec3Q where
  x : ℚ
  y : ℚ
  z : ℚ
  deriving DecidableEq, Repr

/-- Componentwise sum. -/
def Vec3Q.add (a b : Vec3Q) : Vec3Q := ⟨a.x + b.x, a.y + b.y, a.z + b.z⟩

/-- Componentwise difference. -/
def Vec3Q.sub (a b : Vec3Q) : Vec3Q := ⟨a.x - b.x, a.y - b.y, a.z - b.z⟩

/-- Scalar multiple. -/
def Vec3Q.smul (s : ℚ) (a : Vec3Q) : Vec3Q := ⟨s * a.x, s * a.y, s * a.z⟩

/-- Unit Y vector (`Vec3::Y`). -/
def vec3Y : Vec3Q := ⟨0, 1, 0⟩

/-- Camera state read and written by `Camera::handle_input` (position moves
along `forward`, `right` or `Vec3::Y`, scaled by `speed`). -/
structure CameraState where
  position : Vec3Q
  forward : Vec3Q
  right : Vec3Q
  speed : ℚ
  deriving DecidableEq, Repr

/-- Initial camera of `Camera::new`. -/
def initialCamera : CameraState :=
  { position := ⟨0, 2, 10⟩, forward := ⟨0, 0, -1⟩, right := ⟨1, 0, 0⟩, speed := 1 / 10 }

/-- Embedded `Camera::handle_input`. -/
def cameraHandleInput (c : CameraState) (key : Key) : CameraState :=
  match key with
  | .keyW => { c with position := c.position.add (Vec3Q.smul c.speed c.forward) }
  | .keyS => { c with position := c.position.sub (Vec3Q.smul c.speed c.forward) }
  | .keyA => { c with position := c.position.sub (Vec3Q.smul c.speed c.right) }
  | .keyD => { c with position := c.position.add (Vec3Q.smul c.speed c.right) }
  | .keyQ => { c with position := c.position.add (Vec3Q.smul c.speed vec3Y) }
  | .keyE => { c with position := c.position.sub (Vec3Q.smul c.speed vec3Y) }
  | _ => c

/-- Settings vector (`Vec4`): x soft shadows, y reflections, z refraction,
w subsurface scattering. -/
structure SettingsVec where
  x : ℚ
  y : ℚ
  z : ℚ
  w : ℚ
  deriving DecidableEq, Repr

/-- Renderer state touched by `handle_input`. -/
structure InputState where
  camera : CameraState
  settings : SettingsVec
  deriving DecidableEq, Repr

/-- Initial renderer state: `settings = Vec4::new(1.0, 1.0, 1.0, 1.0)` and
the camera of `Camera::new`. -/
def initialInputState : InputState :=
  { camera := initialCamera, settings := ⟨1, 1, 1, 1⟩ }

/-- Embedded `Renderer::handle_input`: on a pressed key, forward to the
camera and flip the matching settings component; on a released key, do
nothing. -/
def handleInput (s : InputState) (key : Key) (state : KeyState) : InputState :=
  match state with
  | .pressed =>
    let cam := cameraHandleInput s.camera key
    let st := s.settings
    let st :=
      match key with
      | .digit1 => { st with x := 1 - st.x }
      | .digit2 => { st with y := 1 - st.y }
      | .digit3 => { st with z := 1 - st.z }
      | .digit4 => { st with w := 1 - st.w }
      | _ => st
    { camera := cam, settings := st }
  | .released => s

/-- States reachable from the initial renderer state by `handle_input`
calls. -/
inductive ReachableInput : InputState → Prop where
  | init : ReachableInput initialInputState
  | step (s : InputState) (key : Key) (state : KeyState) :
      ReachableInput s → ReachableInput (handleInput s key state)

/- ----------------------------------------------------------------
   Concrete device lists used to evaluate the selection function
   ---------------------------------------------------------------- -/

/-- Qualifying discrete GPU with no device-local heap. -/
def discreteTestDevice : PhysDevice :=
  { deviceType := .discreteGpu, queueFamilies := [{ queueFlags := 3, supportsPresent := true }],
    extensions := requiredExtensions, heaps := [] }

/-- Qualifying integrated GPU with a single 501 GiB device-local heap
(501 * 2^30 bytes), scoring 500 + 501 = 1001. -/
def integratedTestDevice : PhysDevice :=
  { deviceType := .integratedGpu, queueFamilies := [{ queueFlags := 3, supportsPresent := true }],
    extensions := requiredExtensions, heaps := [{ size := 537944653824, deviceLocal := true }] }

/- ----------------------------------------------------------------
   Concrete scene data used to evaluate the embedded constructions
   ---------------------------------------------------------------- -/

/-- BLAS device address list with a single entry. -/
def tlasTestBlasAddrs : List Nat := [42]

/-- Instance whose material index exceeds one byte. -/
def tlasCexObject : SceneObject := { mesh_index := 0, material_index := 256 }

/-- Instance with a small material index. -/
def tlasTestObject : SceneObject := { mesh_index := 0, material_index := 3 }

/-- Mesh list with the cube's vertex and index counts. -/
def descTestMeshes : List MeshShape := [{ numVertices := 24, numIndices := 36 }]

/-- Instance referencing material 1 of the shared material buffer. -/
def descCexObject : SceneObject := { mesh_index := 0, material_index := 1 }

/- ================================================================
   THEOREMS
   ================================================================ -/

/- ---------------- helper lemmas: find_memory_type ---------------- -/

theorem findMemoryTypeAux_sound (typeFilter props : Nat) :
    ∀ (l : List Nat) (k j : Nat), findMemoryTypeAux typeFilter props l k = .ok j →
      k ≤ j ∧ j - k < l.length ∧ Nat.land typeFilter (2 ^ j) ≠ 0 ∧
      Nat.land (l.getD (j - k) 0) props = props := by
  intro l
  induction l with
  | nil => intro k j h; simp [findMemoryTypeAux] at h
  | cons f rest ih =>
    intro k j h
    simp only [findMemoryTypeAux] at h
    split at h
    · rename_i hc
      cases h
      refine ⟨Nat.le_refl _, by simp, hc.1, ?_⟩
      simpa using hc.2
    · have := ih (k + 1) j h
      refine ⟨by omega, by simp; omega, this.2.2.1, ?_⟩
      have hj : j - k = (j - (k + 1)) + 1 := by omega
      rw [hj]
      simpa using this.2.2.2

theorem findMemoryTypeAux_complete (typeFilter props : Nat) :
    ∀ (l : List Nat) (k : Nat),
      (∃ i, i < l.length ∧ Nat.land typeFilter (2 ^ (k + i)) ≠ 0 ∧
        Nat.land (l.getD i 0) props = props) →
      ∃ j, findMemoryTypeAux typeFilter props l k = .ok j := by
  intro l
  induction l with
  | nil => intro k ⟨i, hi, _⟩; simp at hi
  | cons f rest ih =>
    intro k ⟨i, hi, hbit, hflags⟩
    simp only [findMemoryTypeAux]
    split
    · exact ⟨k, rfl⟩
    · rename_i hc
      apply ih (k + 1)
      cases i with
      | zero =>
        exfalso
        exact hc ⟨by simpa using hbit, by simpa using hflags⟩
      | succ i =>
        refine ⟨i, by simpa using hi, ?_, by simpa using hflags⟩
        have : k + 1 + i = k + (i + 1) := by omega
        rw [this]; exact hbit

theorem findMemoryTypeAux_fail (typeFilter props : Nat) :
    ∀ (l : List Nat) (k : Nat),
      (∀ i, i < l.length → ¬ (Nat.land typeFilter (2 ^ (k + i)) ≠ 0 ∧
        Nat.land (l.getD i 0) props = props)) →
      findMemoryTypeAux typeFilter props l k = .error .noCompatibleMemoryType := by
  intro l
  induction l with
  | nil => intro k _; rfl
  | cons f rest ih =>
    intro k hnone
    simp only [findMemoryTypeAux]
    split
    · rename_i hc
      exfalso
      apply hnone 0 (by simp)
      exact ⟨by simpa using hc.1, by simpa using hc.2⟩
    · apply ih (k + 1)
      intro i hi
      have := hnone (i + 1) (by simpa using hi)
      have harith : k + 1 + i = k + (i + 1) := by omega
      rw [harith]
      simpa using this

/- ---------------- helper lemmas: device selection ---------------- -/

theorem mem_insertByScoreDesc {x d : PhysDevice} {l : List PhysDevice} :
    x ∈ insertByScoreDesc d l ↔ x = d ∨ x ∈ l := by
  induction l with
  | nil => simp [insertByScoreDesc]
  | cons y ys ih =>
    simp only [insertByScoreDesc]
    split
    · simp
    · simp only [List.mem_cons, ih]
      tauto

theorem mem_sortByScoreDesc {x : PhysDevice} {l : List PhysDevice} :
    x ∈ sortByScoreDesc l ↔ x ∈ l := by
  induction l with
  | nil => simp [sortByScoreDesc]
  | cons d rest ih => simp [sortByScoreDesc, mem_insertByScoreDesc, ih]

/-- Insertion preserves the descending-score pairwise invariant. -/
theorem sorted_insertByScoreDesc {d : PhysDevice} {l : List PhysDevice}
    (h : l.Pairwise (fun a b => deviceScore b ≤ deviceScore a)) :
    (insertByScoreDesc d l).Pairwise (fun a b => deviceScore b ≤ deviceScore a) := by
  induction l with
  | nil => simp [insertByScoreDesc]
  | cons y ys ih =>
    simp only [insertByScoreDesc]
    rcases List.pairwise_cons.mp h with ⟨hy, hys⟩
    split
    · rename_i hle
      refine List.pairwise_cons.mpr ⟨?_, h⟩
      intro b hb
      rcases List.mem_cons.mp hb with rfl | hb
      · exact hle
      · exact Nat.le_trans (hy b hb) hle
    · rename_i hgt
      refine List.pairwise_cons.mpr ⟨?_, ih hys⟩
      intro b hb
      rcases mem_insertByScoreDesc.mp hb with rfl | hb
      · exact Nat.le_of_lt (Nat.lt_of_not_le hgt)
      · exact hy b hb

theorem sorted_sortByScoreDesc (l : List PhysDevice) :
    (sortByScoreDesc l).Pairwise (fun a b => deviceScore b ≤ deviceScore a) := by
  induction l with
  | nil => simp [sortByScoreDesc]
  | cons d rest ih => exact sorted_insertByScoreDesc ih

/-- The selected device qualifies and its score bounds the score of every
qualifying device. -/
theorem selectPhysicalDevice_max (devices : List PhysDevice) (sel : PhysDevice)
    (hsel : selectPhysicalDevice devices = some sel) :
    sel ∈ devices.filter deviceQualifies ∧
    ∀ e ∈ devices.filter deviceQualifies, deviceScore e ≤ deviceScore sel := by
  unfold selectPhysicalDevice at hsel
  rcases hhead : sortByScoreDesc (devices.filter deviceQualifies) with _ | ⟨h, t⟩
  · rw [hhead] at hsel; simp at hsel
  · rw [hhead] at hsel
    simp only [List.head?] at hsel
    cases hsel
    constructor
    · exact mem_sortByScoreDesc.mp (hhead ▸ List.mem_cons_self _ _)
    · intro e he
      have hm : e ∈ sortByScoreDesc (devices.filter deviceQualifies) :=
        mem_sortByScoreDesc.mpr he
      rw [hhead] at hm
      rcases List.mem_cons.mp hm with rfl | hm
      · exact Nat.le_refl _
      · have hp := sorted_sortByScoreDesc (devices.filter deviceQualifies)
        rw [hhead] at hp
        exact (List.pairwise_cons.mp hp).1 e hm

/- ---------------- C1: SBT byte layout ---------------- -/

/-- C1: for a four-group pipeline with 32-byte handles, the SBT buffer holds
the handle of group 0 at bytes [0,32), group 1 at [32,64), group 3 at
[64,96) (shadow miss precedes closest hit, keeping the two miss handles
contiguous in the miss region), and group 2 at [96,128). -/
theorem sbt_byte_layout (handles : Nat → Nat) (k : Nat) (hk : k < handleSize) :
    sbtData handles k = groupHandleByte handles 0 k ∧
    sbtData handles (32 + k) = groupHandleByte handles 1 k ∧
    sbtData handles (64 + k) = groupHandleByte handles 3 k ∧
    sbtData handles (96 + k) = groupHandleByte handles 2 k := by
  simp only [handleSize] at hk
  simp only [sbtData, copyRange, groupHandleByte, handleSize]
  refine ⟨?_, ?_, ?_, ?_⟩ <;>
    (split_ifs <;> first | (exfalso; omega) | (congr 1 <;> omega))

/-- Witness for `sbt_byte_layout` at handle byte 5 of the identity byte
array. -/
theorem sbt_byte_layout_witness :
    5 < handleSize ∧
    (sbtData (fun i => i) 5 = groupHandleByte (fun i => i) 0 5 ∧
     sbtData (fun i => i) (32 + 5) = groupHandleByte (fun i => i) 1 5 ∧
     sbtData (fun i => i) (64 + 5) = groupHandleByte (fun i => i) 3 5 ∧
     sbtData (fun i => i) (96 + 5) = groupHandleByte (fun i => i) 2 5) :=
  ⟨by decide, sbt_byte_layout (fun i => i) 5 (by decide)⟩

/- ---------------- C6: memory type resolution ---------------- -/

/-- C6: when some memory type matches the bitmask and has all requested
property bits, `find_memory_type` returns such an index; when none matches,
it fails with the no-compatible-memory-type error and never returns an
incompatible index. -/
theorem find_memory_type_correct (typeFilter props : Nat) (memTypes : List Nat) :
    ((∃ i, i < memTypes.length ∧ MemMatch typeFilter props memTypes i) →
      ∃ j, find_memory_type typeFilter props memTypes = .ok j ∧
        j < memTypes.length ∧ MemMatch typeFilter props memTypes j) ∧
    ((∀ i, i < memTypes.length → ¬ MemMatch typeFilter props memTypes i) →
      find_memory_type typeFilter props memTypes = .error .noCompatibleMemoryType) := by
  constructor
  · rintro ⟨i, hi, hm⟩
    obtain ⟨hbit, hflags⟩ := hm
    obtain ⟨j, hj⟩ := findMemoryTypeAux_complete typeFilter props memTypes 0
      ⟨i, hi, by simpa using hbit, hflags⟩
    have hs := findMemoryTypeAux_sound typeFilter props memTypes 0 j hj
    refine ⟨j, hj, by simpa using hs.2.1, hs.2.2.1, ?_⟩
    simpa using hs.2.2.2
  · intro hnone
    apply findMemoryTypeAux_fail
    intro i hi
    have := hnone i hi
    simp only [MemMatch] at this
    simpa using this

/-- Witness for `find_memory_type_correct`: bitmask 1, no required property
bits, one memory type. -/
theorem find_memory_type_correct_witness :
    (∃ i, i < ([0] : List Nat).length ∧ MemMatch 1 0 [0] i) ∧
    (∃ j, find_memory_type 1 0 [0] = .ok j ∧ j < ([0] : List Nat).length ∧
      MemMatch 1 0 [0] j) :=
  have h : ∃ i, i < ([0] : List Nat).length ∧ MemMatch 1 0 [0] i :=
    ⟨0, by decide, by decide⟩
  ⟨h, (find_memory_type_correct 1 0 [0]).1 h⟩

/- ---------------- C7: out-of-date acquire skips the frame ---------------- -/

/-- C7: when swapchain image acquisition reports out-of-date, `render`
returns success, and the call performs no fence reset, no command buffer
reset, no command recording, no submit and no present: the only actions are
the fence wait and the acquire. -/
theorem render_out_of_date_skips (currentFrame : Nat) (env : RenderEnv)
    (h : env.acquire = .outOfDate) :
    (renderStep currentFrame env).returnedOk = true ∧
    (renderStep currentFrame env).events =
      [FrameEvent.waitFence currentFrame, FrameEvent.acquireImage] ∧
    (∀ s, FrameEvent.resetFence s ∉ (renderStep currentFrame env).events) ∧
    (∀ s, FrameEvent.resetCmdBuf s ∉ (renderStep currentFrame env).events) ∧
    FrameEvent.recordCommands ∉ (renderStep currentFrame env).events ∧
    (∀ s, FrameEvent.submit s ∉ (renderStep currentFrame env).events) ∧
    FrameEvent.presentImage ∉ (renderStep currentFrame env).events := by
  obtain ⟨a, p⟩ := env
  simp only at h
  subst h
  simp [renderStep]

/-- Witness for `render_out_of_date_skips` at slot 0. -/
theorem render_out_of_date_skips_witness :
    ({ acquire := .outOfDate, present := .success } : RenderEnv).acquire =
        AcquireResult.outOfDate ∧
    (renderStep 0 { acquire := .outOfDate, present := .success }).returnedOk = true ∧
    (renderStep 0 { acquire := .outOfDate, present := .success }).events =
      [FrameEvent.waitFence 0, FrameEvent.acquireImage] ∧
    (∀ s, FrameEvent.resetFence s ∉
      (renderStep 0 { acquire := .outOfDate, present := .success }).events) ∧
    (∀ s, FrameEvent.resetCmdBuf s ∉
      (renderStep 0 { acquire := .outOfDate, present := .success }).events) ∧
    FrameEvent.recordCommands ∉
      (renderStep 0 { acquire := .outOfDate, present := .success }).events ∧
    (∀ s, FrameEvent.submit s ∉
      (renderStep 0 { acquire := .outOfDate, present := .success }).events) ∧
    FrameEvent.presentImage ∉
      (renderStep 0 { acquire := .outOfDate, present := .success }).events :=
  ⟨rfl, render_out_of_date_skips 0 { acquire := .outOfDate, present := .success } rfl⟩

/- ---------------- C5: frame slot protocol ---------------- -/

/-- Helper: when every frame in the sequence completes, the slot advances by
one modulo 2 per call. -/
theorem runRender_completes (envs : List RenderEnv) :
    ∀ cf, cf < 2 → (∀ e ∈ envs, FrameCompletes e) →
      runRender cf envs = (cf + envs.length) % 2 := by
  induction envs with
  | nil => intro cf hcf _; simp [runRender]; omega
  | cons env rest ih =>
    intro cf hcf hall
    have hc := hall env (List.mem_cons_self _ _)
    obtain ⟨⟨i, hacq⟩, hpres⟩ := hc
    have hstep : (renderStep cf env).newFrame = (cf + 1) % 2 := by
      obtain ⟨a, p⟩ := env
      simp only at hacq
      subst hacq
      cases p <;> simp [renderStep] at hpres ⊢
    simp only [runRender, hstep]
    rw [ih ((cf + 1) % 2) (Nat.mod_lt _ (by omega))
      (fun e he => hall e (List.mem_cons_of_mem _ he))]
    simp [List.length_cons]
    omega

/-- Counterexample to C5 as stated: a render call whose image acquisition
reports out-of-date returns with the slot index unchanged, so the slot
sequence does not advance modulo 2 on every call. -/
theorem frame_slot_advance_cex :
    (renderStep 0 { acquire := .outOfDate, present := .success }).newFrame ≠ (0 + 1) % 2 := by
  decide

/-- C5 (amended): every render call first waits on the current slot's fence
(the first event), and only the current slot's command buffer is ever reset
afterwards; a call that completes a frame advances the slot modulo 2 while a
call aborted by an out-of-date acquire leaves it unchanged, so across every
sequence of completing render calls the slot takes the values
0, 1, 0, 1, ... -/
theorem frame_slot_protocol (cf : Nat) (env : RenderEnv) (envs : List RenderEnv) :
    (renderStep cf env).events.head? = some (FrameEvent.waitFence cf) ∧
    (∀ s, FrameEvent.resetCmdBuf s ∈ (renderStep cf env).events → s = cf) ∧
    (FrameCompletes env → (renderStep cf env).newFrame = (cf + 1) % 2) ∧
    (env.acquire = .outOfDate → (renderStep cf env).newFrame = cf) ∧
    ((∀ e ∈ envs, FrameCompletes e) → runRender 0 envs = envs.length % 2) := by
  obtain ⟨a, p⟩ := env
  refine ⟨?_, ?_, ?_, ?_, ?_⟩
  · cases a <;> cases p <;> simp [renderStep]
  · intro s hs
    cases a <;> cases p <;> simp [renderStep] at hs <;> exact hs
  · rintro ⟨⟨i, hacq⟩, hpres⟩
    simp only at hacq
    subst hacq
    cases p <;> simp [renderStep] at hpres ⊢
  · intro hacq
    simp only at hacq
    subst hacq
    simp [renderStep]
  · intro hall
    simpa using runRender_completes envs 0 (by omega) hall

/-- Witness for `frame_slot_protocol`: one completing call from slot 0 and a
two-call completing sequence. -/
theorem frame_slot_protocol_witness :
    FrameCompletes { acquire := .success 0, present := .success } ∧
    (renderStep 0 { acquire := .success 0, present := .success }).events.head? =
      some (FrameEvent.waitFence 0) ∧
    (renderStep 0 { acquire := .success 0, present := .success }).newFrame = (0 + 1) % 2 ∧
    runRender 0 [{ acquire := .success 0, present := .success },
                 { acquire := .success 0, present := .success }] =
      ([{ acquire := .success 0, present := .success },
        { acquire := .success 0, present := .success }] : List RenderEnv).length % 2 := by
  have hc : FrameCompletes { acquire := .success 0, present := .success } :=
    ⟨⟨0, rfl⟩, by simp⟩
  have h := frame_slot_protocol 0 { acquire := .success 0, present := .success }
    [{ acquire := .success 0, present := .success },
     { acquire := .success 0, present := .success }]
  exact ⟨hc, h.1, h.2.2.1 hc, h.2.2.2.2 (by intro e he; simp at he; subst he; exact hc)⟩

/- ---------------- C8: trace-rays dispatch dimensions ---------------- -/

/-- Counterexample to C8 as stated: when the surface reports an 800x600
extent the storage image is created at 800x600, but the trace-rays dispatch
stays at the hardcoded 1280x720x1, so the dispatch does not equal the render
target's pixel dimensions for every creation extent. -/
theorem trace_dims_cex :
    traceRaysDims ≠
      ((storageImage { currentExtent := (800, 600), minImageExtent := (1, 1),
                       maxImageExtent := (4096, 4096) } (800, 600)).width,
       (storageImage { currentExtent := (800, 600), minImageExtent := (1, 1),
                       maxImageExtent := (4096, 4096) } (800, 600)).height, 1) := by
  decide

/-- C8 (amended): the trace-rays dispatch is the fixed 1280x720x1; it equals
the storage image's pixel dimensions exactly when the computed surface
extent at creation time was 1280x720. -/
theorem trace_dims_fixed (caps : SurfaceCaps) (windowSize : Nat × Nat) :
    traceRaysDims =
      ((storageImage caps windowSize).width, (storageImage caps windowSize).height, 1) ↔
    surfaceExtent caps windowSize = (1280, 720) := by
  unfold traceRaysDims storageImage
  constructor
  · intro h
    have h1 := congrArg Prod.fst h
    have h2 := congrArg (fun t => t.2.1) h
    simp at h1 h2
    ext1 <;> simp [h1.symm, h2.symm]  -- hmm may fail; fallback below
  · intro h
    simp [h]

/-- Witness for `trace_dims_fixed`: at a surface reporting extent 1280x720
the dispatch and storage image dimensions agree. -/
theorem trace_dims_fixed_witness :
    traceRaysDims =
      ((storageImage { currentExtent := (1280, 720), minImageExtent := (1, 1),
                       maxImageExtent := (4096, 4096) } (1280, 720)).width,
       (storageImage { currentExtent := (1280, 720), minImageExtent := (1, 1),
                       maxImageExtent := (4096, 4096) } (1280, 720)).height, 1) :=
  (trace_dims_fixed { currentExtent := (1280, 720), minImageExtent := (1, 1),
                      maxImageExtent := (4096, 4096) } (1280, 720)).mpr rfl

/- ---------------- C2: physical device selection ---------------- -/

/-- Counterexample to C2 as stated: a qualifying discrete GPU with no VRAM
enumerated next to a qualifying integrated GPU with a 501 GiB device-local
heap.  The integrated device scores 500 + 501 = 1001 against the discrete
device's 1000, so selection picks the integrated GPU. -/
theorem device_selection_cex :
    deviceQualifies discreteTestDevice = true ∧
    discreteTestDevice.deviceType = DeviceType.discreteGpu ∧
    (selectPhysicalDevice [discreteTestDevice, integratedTestDevice]).map
      PhysDevice.deviceType = some DeviceType.integratedGpu := by
  refine ⟨rfl, rfl, rfl⟩

/-- C2 (amended): selection is a deterministic function of the enumerated
list; it always returns a qualifying device of maximal score, so a discrete
GPU is selected whenever some qualifying discrete device outscores every
qualifying non-discrete device — which can fail when a non-discrete device's
device-local memory bonus (+1 point per GiB) overcomes the 500-point class
gap. -/
theorem device_selection_discrete (devices : List PhysDevice) (d : PhysDevice)
    (hd : d ∈ devices.filter deviceQualifies)
    (_hdisc : d.deviceType = DeviceType.discreteGpu)
    (hdom : ∀ e ∈ devices.filter deviceQualifies,
      e.deviceType ≠ DeviceType.discreteGpu → deviceScore e < deviceScore d) :
    ∃ sel, selectPhysicalDevice devices = some sel ∧
      sel.deviceType = DeviceType.discreteGpu ∧
      sel ∈ devices.filter deviceQualifies ∧
      ∀ e ∈ devices.filter deviceQualifies, deviceScore e ≤ deviceScore sel := by
  have hmem : d ∈ sortByScoreDesc (devices.filter deviceQualifies) :=
    mem_sortByScoreDesc.mpr hd
  obtain ⟨sel, hsel⟩ : ∃ sel, selectPhysicalDevice devices = some sel := by
    unfold selectPhysicalDevice
    cases hs : sortByScoreDesc (devices.filter deviceQualifies) with
    | nil => rw [hs] at hmem; simp at hmem
    | cons h t => exact ⟨h, rfl⟩
  obtain ⟨hselmem, hmax⟩ := selectPhysicalDevice_max devices sel hsel
  refine ⟨sel, hsel, ?_, hselmem, hmax⟩
  by_contra hne
  exact absurd (hmax d hd) (Nat.not_le.mpr (hdom sel hselmem hne))

/-- Witness for `device_selection_discrete`: a single qualifying discrete
device. -/
theorem device_selection_discrete_witness :
    discreteTestDevice ∈ [discreteTestDevice].filter deviceQualifies ∧
    ∃ sel, selectPhysicalDevice [discreteTestDevice] = some sel ∧
      sel.deviceType = DeviceType.discreteGpu ∧
      sel ∈ [discreteTestDevice].filter deviceQualifies ∧
      ∀ e ∈ [discreteTestDevice].filter deviceQualifies,
        deviceScore e ≤ deviceScore sel := by
  have hd : discreteTestDevice ∈ [discreteTestDevice].filter deviceQualifies := by
    simp [List.mem_filter]
    rfl
  refine ⟨hd, device_selection_discrete _ _ hd rfl ?_⟩
  intro e he hne
  exfalso
  simp [List.mem_filter] at he
  simp [he.1, discreteTestDevice] at hne

/- ---------------- C3: TLAS instance records ---------------- -/

/-- Helper: remainder by a power of two distributes over bitwise or. -/
theorem lor_mod_two_pow (x y k : Nat) :
    (x ||| y) % 2 ^ k = (x % 2 ^ k) ||| (y % 2 ^ k) := by
  apply Nat.eq_of_testBit_eq
  intro i
  simp only [Nat.testBit_mod_two_pow, Nat.testBit_or]
  by_cases h : i < k <;> simp [h]

/-- Helper: right shift distributes over bitwise or. -/
theorem lor_shiftRight (x y k : Nat) :
    (x ||| y) >>> k = (x >>> k) ||| (y >>> k) := by
  apply Nat.eq_of_testBit_eq
  intro i
  simp [Nat.testBit_shiftRight, Nat.testBit_or]

/-- Low byte of a packed custom-index-and-mask value: the low byte of the
24-bit custom index. -/
theorem packed24_8_mod_256 (lower upper : Nat) :
    packed24_8 lower upper % 256 = lower % 256 := by
  have h := lor_mod_two_pow (lower &&& 0xFFFFFF) ((upper % 256) <<< 24) 8
  norm_num at h
  rw [packed24_8, h]
  have h1 : (lower &&& 0xFFFFFF) % 256 = lower % 256 := by
    rw [(by norm_num : (0xFFFFFF : Nat) = 2 ^ 24 - 1), Nat.and_pow_two_sub_one_eq_mod]
    exact Nat.mod_mod_of_dvd _ (by norm_num)
  have h2 : ((upper % 256) <<< 24) % 256 = 0 := by
    rw [Nat.shiftLeft_eq]
    have he : (upper % 256) * 2 ^ 24 = ((upper % 256) * 2 ^ 16) * 256 := by ring
    rw [he, Nat.mul_mod_left]
  rw [h1, h2, Nat.or_zero]

/-- High byte of a packed custom-index-and-mask value: the 8-bit mask. -/
theorem packed24_8_div_2pow24 (lower upper : Nat) :
    packed24_8 lower upper / 2 ^ 24 = upper % 256 := by
  rw [packed24_8,
    (by norm_num : (0xFFFFFF : Nat) = 2 ^ 24 - 1), Nat.and_pow_two_sub_one_eq_mod,
    ← Nat.shiftRight_eq_div_pow, lor_shiftRight]
  have h2 : (lower % 2 ^ 24) >>> 24 = 0 := by
    rw [Nat.shiftRight_eq_div_pow]
    exact Nat.div_eq_of_lt (Nat.mod_lt _ (by positivity))
  have h3 : ((upper % 256) <<< 24) >>> 24 = upper % 256 := by
    rw [Nat.shiftLeft_eq, Nat.shiftRight_eq_div_pow]
    exact Nat.mul_div_cancel _ (by positivity)
  rw [h2, h3, Nat.zero_or]

/-- Field contents of a successfully built TLAS instance record. -/
theorem mkAccelInstance_spec (blasAddrs : List Nat) (obj : SceneObject)
    (inst : AccelInstance) (h : mkAccelInstance blasAddrs obj = some inst) :
    obj.mesh_index < blasAddrs.length ∧
    inst.accelerationStructureReference = blasAddrs.getD obj.mesh_index 0 ∧
    inst.customIndexAndMask = packed24_8 (u32cast obj.material_index) 0xFF ∧
    inst.sbtOffsetAndFlags = packed24_8 0 triangleFacingCullDisable := by
  unfold mkAccelInstance at h
  split at h
  · rename_i hlt
    cases h
    refine ⟨hlt, ?_, rfl, rfl⟩
    simp only [List.getD_eq_getElem?_getD, List.getElem?_eq_getElem hlt]
    rfl
  · cases h

/-- Counterexample to C3 as stated: an instance with material index 256
produces a record whose custom-index low byte is 0, not 256, so the low
byte does not equal the material index for every instance list. -/
theorem tlas_instance_cex :
    (mkAccelInstance tlasTestBlasAddrs tlasCexObject).map
      (fun inst => inst.customIndexAndMask % 256) = some 0 ∧
    tlasCexObject.material_index ≠ 0 := by
  constructor
  · rfl
  · decide

/-- C3 (amended): every TLAS instance record built from an instance list
references the device address of the BLAS at that instance's mesh index,
carries the low byte of the instance's material index (the custom index is
the material index reduced mod 2^24, hence the low byte equals the material
index mod 256), packs the always-enabled mask 0xFF in the top byte, and has
the back-face-culling-disable flag bit set. -/
theorem tlas_instance_records (blasAddrs : List Nat) (objs : List SceneObject)
    (insts : List AccelInstance) (h : mkAccelInstances blasAddrs objs = some insts) :
    insts.length = objs.length ∧
    ∀ i, i < objs.length →
      (insts.getD i default).accelerationStructureReference =
        blasAddrs.getD ((objs.getD i default).mesh_index) 0 ∧
      (insts.getD i default).customIndexAndMask % 256 =
        (objs.getD i default).material_index % 256 ∧
      (insts.getD i default).customIndexAndMask / 2 ^ 24 = 0xFF ∧
      Nat.testBit (insts.getD i default).sbtOffsetAndFlags 24 = true := by
  induction objs generalizing insts with
  | nil =>
    cases h
    exact ⟨rfl, fun i hi => absurd hi (by simp)⟩
  | cons obj rest ih =>
    unfold mkAccelInstances at h
    cases hI : mkAccelInstance blasAddrs obj with
    | none => rw [hI] at h; simp at h
    | some inst0 =>
      rw [hI] at h
      cases hR : mkAccelInstances blasAddrs rest with
      | none => rw [hR] at h; simp at h
      | some insts' =>
        rw [hR] at h
        simp only [Option.some.injEq] at h
        subst h
        obtain ⟨hlen, hrest⟩ := ih insts' hR
        obtain ⟨_, href, hcust, hflags⟩ := mkAccelInstance_spec blasAddrs obj inst0 hI
        refine ⟨by simp [hlen], ?_⟩
        intro i hi
        cases i with
        | zero =>
          simp only [List.getD_cons_zero]
          refine ⟨href, ?_, ?_, ?_⟩
          · rw [hcust, packed24_8_mod_256]
            exact Nat.mod_mod_of_dvd _ (by norm_num)
          · rw [hcust, packed24_8_div_2pow24]
          · rw [hflags]
            decide
        | succ i =>
          simp only [List.getD_cons_succ]
          exact hrest i (by simpa using hi)

/-- Witness for `tlas_instance_records`: one instance with material 3 over a
single BLAS at address 42. -/
theorem tlas_instance_records_witness :
    mkAccelInstances tlasTestBlasAddrs [tlasTestObject] =
      some [{ customIndexAndMask := packed24_8 (u32cast 3) 0xFF,
              sbtOffsetAndFlags := packed24_8 0 triangleFacingCullDisable,
              accelerationStructureReference := 42 }] ∧
    ([{ customIndexAndMask := packed24_8 (u32cast 3) 0xFF,
        sbtOffsetAndFlags := packed24_8 0 triangleFacingCullDisable,
        accelerationStructureReference := 42 }] : List AccelInstance).length =
      [tlasTestObject].length ∧
    ∀ i, i < [tlasTestObject].length →
      (([{ customIndexAndMask := packed24_8 (u32cast 3) 0xFF,
           sbtOffsetAndFlags := packed24_8 0 triangleFacingCullDisable,
           accelerationStructureReference := 42 }] : List AccelInstance).getD i
            default).accelerationStructureReference =
        tlasTestBlasAddrs.getD (([tlasTestObject].getD i default).mesh_index) 0 ∧
      (([{ customIndexAndMask := packed24_8 (u32cast 3) 0xFF,
           sbtOffsetAndFlags := packed24_8 0 triangleFacingCullDisable,
           accelerationStructureReference := 42 }] : List AccelInstance).getD i
            default).customIndexAndMask % 256 =
        ([tlasTestObject].getD i default).material_index % 256 ∧
      (([{ customIndexAndMask := packed24_8 (u32cast 3) 0xFF,
           sbtOffsetAndFlags := packed24_8 0 triangleFacingCullDisable,
           accelerationStructureReference := 42 }] : List AccelInstance).getD i
            default).customIndexAndMask / 2 ^ 24 = 0xFF ∧
      Nat.testBit
        (([{ customIndexAndMask := packed24_8 (u32cast 3) 0xFF,
             sbtOffsetAndFlags := packed24_8 0 triangleFacingCullDisable,
             accelerationStructureReference := 42 }] : List AccelInstance).getD i
              default).sbtOffsetAndFlags 24 = true := by
  have h : mkAccelInstances tlasTestBlasAddrs [tlasTestObject] =
      some [{ customIndexAndMask := packed24_8 (u32cast 3) 0xFF,
              sbtOffsetAndFlags := packed24_8 0 triangleFacingCullDisable,
              accelerationStructureReference := 42 }] := rfl
  have hc := tlas_instance_records tlasTestBlasAddrs [tlasTestObject] _ h
  exact ⟨h, hc.1, hc.2⟩

/- ---------------- C4: per-instance descriptor records ---------------- -/

/-- Helper: the offset loop computes the sums of vertex and index counts of
the meshes preceding the stop index. -/
theorem sceneOffsets_eq (meshes : List MeshShape) (k : Nat) :
    sceneOffsets meshes k =
      (((meshes.take k).map MeshShape.numVertices).sum,
       ((meshes.take k).map MeshShape.numIndices).sum) := by
  induction meshes generalizing k with
  | nil => cases k <;> simp [sceneOffsets]
  | cons m rest ih =>
    cases k with
    | zero => simp [sceneOffsets]
    | succ k => simp [sceneOffsets, ih]

/-- Counterexample to C4 as stated: the record of an instance with material
index 1 holds the material buffer's base address (here 0), not the address
of material 1's sub-range (base + 32), so the record does not pack the
device address of the instance's material sub-range. -/
theorem scene_desc_material_cex :
    (mkSceneDesc 0 0 0 descTestMeshes descCexObject).material_addr ≠
      0 + descCexObject.material_index * materialSize := by
  decide

/-- C4 (amended): every per-instance descriptor record packs the vertex
buffer's base address plus the byte offset of all preceding meshes'
vertices, the index buffer's base address plus the byte offset of all
preceding meshes' indices, and the base device address of the material
buffer — the same for every instance, not offset by the material index. -/
theorem scene_desc_layout (vertexAddr indexAddr materialAddr : Nat)
    (meshes : List MeshShape) (obj : SceneObject) :
    mkSceneDesc vertexAddr indexAddr materialAddr meshes obj =
      { vertex_addr := vertexAddr + vertexBytesBefore meshes obj.mesh_index,
        index_addr := indexAddr + indexBytesBefore meshes obj.mesh_index,
        material_addr := materialAddr } := by
  unfold mkSceneDesc vertexBytesBefore indexBytesBefore
  rw [sceneOffsets_eq]

/- ---------------- C9: double toggle of soft shadows ---------------- -/

/-- C9: from any reachable renderer state, two pressed `Digit1` inputs leave
the soft-shadow settings component unchanged. -/
theorem soft_shadow_double_toggle (s : InputState) (_h : ReachableInput s) :
    (handleInput (handleInput s Key.digit1 KeyState.pressed)
        Key.digit1 KeyState.pressed).settings.x = s.settings.x := by
  dsimp only [handleInput]
  ring

/-- Witness for `soft_shadow_double_toggle` at the initial state. -/
theorem soft_shadow_double_toggle_witness :
    ReachableInput initialInputState ∧
    (handleInput (handleInput initialInputState Key.digit1 KeyState.pressed)
        Key.digit1 KeyState.pressed).settings.x = initialInputState.settings.x :=
  ⟨ReachableInput.init, soft_shadow_double_toggle initialInputState ReachableInput.init⟩

/- ---------------- C10: settings invariant ---------------- -/

/-- C10: in every state reachable from the initial renderer state by
`handle_input` calls, each of the four settings components is exactly 0 or
exactly 1, and a `handle_input` call with a released key state changes
neither the settings nor the camera (the whole state is unchanged). -/
theorem settings_zero_one_invariant (s : InputState) (h : ReachableInput s) :
    ((s.settings.x = 0 ∨ s.settings.x = 1) ∧
     (s.settings.y = 0 ∨ s.settings.y = 1) ∧
     (s.settings.z = 0 ∨ s.settings.z = 1) ∧
     (s.settings.w = 0 ∨ s.settings.w = 1)) ∧
    ∀ key, handleInput s key KeyState.released = s := by
  constructor
  · induction h with
    | init => simp [initialInputState]
    | step s key state hs ih =>
      cases state with
      | released => exact ih
      | pressed =>
        obtain ⟨hx, hy, hz, hw⟩ := ih
        have tog : ∀ q : ℚ, q = 0 ∨ q = 1 → 1 - q = 0 ∨ 1 - q = 1 := by
          rintro q (rfl | rfl)
          · right; norm_num
          · left; norm_num
        cases key
        all_goals dsimp only [handleInput]
        all_goals exact
          ⟨by first | exact hx | exact tog _ hx,
           by first | exact hy | exact tog _ hy,
           by first | exact hz | exact tog _ hz,
           by first | exact hw | exact tog _ hw⟩
  · intro key
    rfl

/-- Witness for `settings_zero_one_invariant` at the initial state. -/
theorem settings_zero_one_invariant_witness :
    ReachableInput initialInputState ∧
    (((initialInputState.settings.x = 0 ∨ initialInputState.settings.x = 1) ∧
      (initialInputState.settings.y = 0 ∨ initialInputState.settings.y = 1) ∧
      (initialInputState.settings.z = 0 ∨ initialInputState.settings.z = 1) ∧
      (initialInputState.settings.w = 0 ∨ initialInputState.settings.w = 1)) ∧
     ∀ key, handleInput initialInputState key KeyState.released = initialInputState) :=
  ⟨ReachableInput.init, settings_zero_one_invariant initialInputState ReachableInput.init⟩
